import Mathlib

/-!
# Verification of the Vobook pipeline core

Shallow embedding of the pipeline substrate of the Vobook repository:
stage checkpoint/resume (`app/main.py`), navigation resolution
(`app/book_parser/toc_parser.py`), content segmentation
(`app/book_parser/content_splitter.py`), the two-tier caches and the
per-segment fan-out of `app/text_processor/deepseek_processor.py` and
`app/voice_generator/azure_tts.py`.

Python strings are modelled as `String`/`List Char`; `hashlib.md5` is
embedded as a full MD5 implementation over UTF-8 byte lists; filesystem
state touched by the caches is modelled as explicit record state threaded
through the functions.  External collaborators (the DeepSeek HTTP call,
the Azure synthesizer, `ebooklib`/BeautifulSoup parsing of raw bytes) are
modelled as oracle parameters or pre-parsed inductive data, mirroring the
branch structure of the source.
-/

namespace Vobook

set_option maxRecDepth 1000000

/-! ## Python string primitives -/

/-- Python `<` on strings: lexicographic comparison by code point
(`str.__lt__`).  Used by `main.py` through `last_stage <= "..."`. -/
def pyStrLt : List Char → List Char → Bool
  | [], [] => false
  | [], _ :: _ => true
  | _ :: _, [] => false
  | a :: as, b :: bs =>
    if a.toNat < b.toNat then true
    else if b.toNat < a.toNat then false
    else pyStrLt as bs

/-- Python `<=` on strings (lexicographic by code point). -/
def pyStrLe (a b : String) : Bool :=
  a = b || pyStrLt a.data b.data

/-- Characters stripped by Python `str.strip()` with no argument
(the ASCII whitespace subset, which covers every input in this
development). -/
def isPySpace (c : Char) : Bool :=
  c = ' ' || c = '\t' || c = '\n' || c = '\r' ||
  c = Char.ofNat 11 || c = Char.ofNat 12

/-- Python `str.strip()` on a character list: drop leading and trailing
whitespace. -/
def pyStrip (l : List Char) : List Char :=
  ((l.dropWhile isPySpace).reverse.dropWhile isPySpace).reverse

/-- Python `str.strip(chars)`: drop leading and trailing characters that
belong to `set`. -/
def pyStripChars (set : List Char) (l : List Char) : List Char :=
  ((l.dropWhile (· ∈ set)).reverse.dropWhile (· ∈ set)).reverse

/-! ## `main.py`: stage gating of `AudiobookVideoGenerator.generate`

`generate` consults `_load_progress` and then guards each stage with
`if last_stage is None or last_stage <= "<previous stage>"`, where `<=`
is Python's lexicographic string comparison.  `process_videos` always
runs and is not checkpoint-gated. -/

/-- The fixed pipeline order of the six checkpoint-gated stages
(`main.py`, methods `parse_book` … `record_videos`). -/
def pipelineStages : List String :=
  ["parse_book", "split_content", "process_text", "generate_speech",
   "render_html", "record_videos"]

/-- One stage-gate of `generate`: the stage guarded by
`last_stage <= bound` runs when there is no checkpoint or the recorded
stage compares `<=` to `bound` as a Python string. -/
def stageGate (last : Option String) (bound : String) : Bool :=
  match last with
  | none => true
  | some l => pyStrLe l bound

/-- The list of checkpoint-gated stages `generate` executes when
`_load_progress` returned `last` (`main.py:320-355`).  `parse_book` runs
exactly when the checkpoint is absent or empty; each later stage is
guarded by `last_stage <= <name of its predecessor>`. -/
def stagesExecuted (last : Option String) : List String :=
  (if last = none ∨ last = some "" then ["parse_book"] else []) ++
  (if stageGate last "parse_book" then ["split_content"] else []) ++
  (if stageGate last "split_content" then ["process_text"] else []) ++
  (if stageGate last "process_text" then ["generate_speech"] else []) ++
  (if stageGate last "generate_speech" then ["render_html"] else []) ++
  (if stageGate last "render_html" then ["record_videos"] else [])

/-- The resume behaviour the spec mandates: after a checkpoint that
records completed stage `s`, execute exactly the stages strictly after
`s` in `pipelineStages`. -/
def specResume (s : String) : List String :=
  (pipelineStages.dropWhile (· ≠ s)).drop 1

/-! ## `main.py`: progress persistence (`_save_progress` / `_load_progress`)

The progress file and the per-stage data files are modelled as one
record.  Stage outputs are opaque (`Data := String`). -/

/-- Opaque serialized stage output. -/
abbrev Data := String

/-- The scope-local persisted state `main.py` touches: the single
progress record (stage name of the last completed stage) and the
per-stage data files, keyed by stage name. -/
structure ProgressFS where
  progress : Option String
  dataFiles : List (String × Data)
deriving DecidableEq

/-- Embeds `_save_progress(stage, data)` (`main.py:387-407`): a no-op when
`use_cache` is false; otherwise overwrite the progress record and write
the stage's data file. -/
def saveProgress (useCache : Bool) (fs : ProgressFS) (stage : String)
    (data : Data) : ProgressFS :=
  if !useCache then fs
  else
    { progress := some stage,
      dataFiles := (stage, data) :: fs.dataFiles.filter (·.1 ≠ stage) }

/-- Embeds `_load_progress` (`main.py:409-434`): `(None, None)` when `use_cache`
is false or no progress file exists; otherwise the recorded stage and its
data file, or `(None, None)` when the data file is missing. -/
def loadProgress (useCache : Bool) (fs : ProgressFS) :
    Option (String × Data) :=
  if !useCache then none
  else
    match fs.progress with
    | none => none
    | some stage =>
      match fs.dataFiles.lookup stage with
      | some d => some (stage, d)
      | none => none

/-! ## `hashlib.md5` — MD5 over UTF-8 byte lists

`content_splitter.py`, `deepseek_processor.py` and `azure_tts.py` all key
ids and cache entries by `hashlib.md5(text.encode('utf-8')).hexdigest()`.
Bytes are `Nat`s below 256; 32-bit words are `Nat`s reduced mod `2^32`. -/

/-- Reduce to a 32-bit word. -/
def m32 (n : Nat) : Nat := n % 4294967296

/-- 32-bit bitwise complement (operand assumed reduced). -/
def not32 (x : Nat) : Nat := 4294967295 - x

/-- 32-bit left rotation (operand assumed reduced, `0 < n < 32`). -/
def rotl32 (x n : Nat) : Nat := m32 ((x <<< n) ||| (x >>> (32 - n)))

/-- The 64 MD5 round constants `floor(abs(sin(i+1)) * 2^32)`. -/
def md5K : List Nat :=
  [3614090360, 3905402710, 606105819, 3250441966, 4118548399, 1200080426,
   2821735955, 4249261313, 1770035416, 2336552879, 4294925233, 2304563134,
   1804603682, 4254626195, 2792965006, 1236535329, 4129170786, 3225465664,
   643717713, 3921069994, 3593408605, 38016083, 3634488961, 3889429448,
   568446438, 3275163606, 4107603335, 1163531501, 2850285829, 4243563512,
   1735328473, 2368359562, 4294588738, 2272392833, 1839030562, 4259657740,
   2763975236, 1272893353, 4139469664, 3200236656, 681279174, 3936430074,
   3572445317, 76029189, 3654602809, 3873151461, 530742520, 3299628645,
   4096336452, 1126891415, 2878612391, 4237533241, 1700485571, 2399980690,
   4293915773, 2240044497, 1873313359, 4264355552, 2734768916, 1309151649,
   4149444226, 3174756917, 718787259, 3951481745]

/-- The per-round left-rotation amounts. -/
def md5S : List Nat :=
  [7, 12, 17, 22, 7, 12, 17, 22, 7, 12, 17, 22, 7, 12, 17, 22,
   5, 9, 14, 20, 5, 9, 14, 20, 5, 9, 14, 20, 5, 9, 14, 20,
   4, 11, 16, 23, 4, 11, 16, 23, 4, 11, 16, 23, 4, 11, 16, 23,
   6, 10, 15, 21, 6, 10, 15, 21, 6, 10, 15, 21, 6, 10, 15, 21]

/-- One MD5 round: `i` is the round index, `M` the 16 message words of
the current chunk, `(a, b, c, d)` the working state. -/
def md5Round (M : Nat → Nat) (st : Nat × Nat × Nat × Nat) (i : Nat) :
    Nat × Nat × Nat × Nat :=
  let (a, b, c, d) := st
  let (f, g) :=
    if i < 16 then ((b &&& c) ||| (not32 b &&& d), i)
    else if i < 32 then ((d &&& b) ||| (not32 d &&& c), (5 * i + 1) % 16)
    else if i < 48 then (b ^^^ c ^^^ d, (3 * i + 5) % 16)
    else (c ^^^ (b ||| not32 d), (7 * i) % 16)
  let f := m32 (f + a + md5K.getD i 0 + M g)
  (d, m32 (b + rotl32 f (md5S.getD i 0)), b, c)

/-- Process one 64-byte chunk, updating the four state words. -/
def md5Chunk (chunk : List Nat) (st : Nat × Nat × Nat × Nat) :
    Nat × Nat × Nat × Nat :=
  let M : Nat → Nat := fun g =>
    chunk.getD (4 * g) 0 + 256 * chunk.getD (4 * g + 1) 0 +
    65536 * chunk.getD (4 * g + 2) 0 + 16777216 * chunk.getD (4 * g + 3) 0
  let (a0, b0, c0, d0) := st
  let (a, b, c, d) := (List.range 64).foldl (md5Round M) st
  (m32 (a0 + a), m32 (b0 + b), m32 (c0 + c), m32 (d0 + d))

/-- Fold `md5Chunk` over the 64-byte chunks of the padded message;
`fuel` bounds the recursion (instantiated with the message length). -/
def md5Chunks : Nat → List Nat → Nat × Nat × Nat × Nat →
    Nat × Nat × Nat × Nat
  | 0, _, st => st
  | fuel + 1, msg, st =>
    match msg with
    | [] => st
    | _ => md5Chunks fuel (msg.drop 64) (md5Chunk (msg.take 64) st)

/-- MD5 padding: append `0x80`, zero bytes up to 56 mod 64, and the
original bit length as 8 little-endian bytes. -/
def md5Pad (msg : List Nat) : List Nat :=
  let len := msg.length
  let zeros := (120 - (len + 1) % 64) % 64
  msg ++ [128] ++ List.replicate zeros 0 ++
    ((List.range 8).map fun i => ((8 * len) >>> (8 * i)) % 256)

/-- Lowercase hex digit. -/
def hexDigit (n : Nat) : Char :=
  if n < 10 then Char.ofNat (48 + n) else Char.ofNat (87 + n)

/-- A byte as two lowercase hex characters. -/
def byteHexChars (b : Nat) : List Char :=
  [hexDigit (b / 16), hexDigit (b % 16)]

/-- Embeds `hashlib.md5(bytes).hexdigest()`: the 32-character lowercase hex
digest of a byte list. -/
def md5HexBytes (msg : List Nat) : String :=
  let padded := md5Pad msg
  let (a, b, c, d) :=
    md5Chunks padded.length padded (1732584193, 4023233417, 2562383102, 271733878)
  let outBytes := [a, b, c, d].flatMap fun w =>
    (List.range 4).map fun i => (w >>> (8 * i)) % 256
  ⟨outBytes.flatMap byteHexChars⟩

/-- UTF-8 encoding of one character (Python `str.encode('utf-8')`). -/
def utf8Char (c : Char) : List Nat :=
  let n := c.toNat
  if n < 128 then [n]
  else if n < 2048 then [192 ||| (n >>> 6), 128 ||| (n &&& 63)]
  else if n < 65536 then
    [224 ||| (n >>> 12), 128 ||| ((n >>> 6) &&& 63), 128 ||| (n &&& 63)]
  else
    [240 ||| (n >>> 18), 128 ||| ((n >>> 12) &&& 63),
     128 ||| ((n >>> 6) &&& 63), 128 ||| (n &&& 63)]

/-- UTF-8 bytes of a character list. -/
def utf8 (l : List Char) : List Nat := l.flatMap utf8Char

/-- Embeds `hashlib.md5(s.encode('utf-8')).hexdigest()` for a character list. -/
def md5Hex (l : List Char) : String := md5HexBytes (utf8 l)

/-- Digest check: `md5Hex` agrees with CPython's `hashlib` on a reference input. -/
theorem md5Hex_hello : md5Hex "hello".data = "5d41402abc4b2a76b9719d911017c592" := by
  decide

/-- Digest check: `md5Hex` agrees with CPython's `hashlib` on the empty input. -/
theorem md5Hex_empty : md5Hex [] = "d41d8cd98f00b204e9800998ecf8427e" := by
  decide

/-! ## Data model: segments

Segments are Python dicts `{"id", "type", "content", "image_path"}`
produced by `ContentSplitter`; later stages add keys
(`original_content`, `audio_path`, `duration`, `word_timings`) via
`dict.copy()` + assignment/`update`.  The dict is modelled as one record
whose "added" keys are `Option`-valued and default to `none`. -/

/-- A word-boundary timing span recorded by the Azure callback. -/
structure WordTiming where
  text : String
  audioOffset : Rat
  duration : Rat
deriving DecidableEq, Repr

/-- The `"type"` key of a segment dict. -/
inductive SegType
  | text
  | image
deriving DecidableEq, Repr

/-- A segment dict.  `content` holds the narration text as a character
list; fields after `imagePath` model keys added by later stages. -/
structure Seg where
  id : String
  type : SegType
  content : List Char
  imagePath : Option String := none
  originalContent : Option (List Char) := none
  audioPath : Option String := none
  duration : Option Rat := none
  wordTimings : Option (List WordTiming) := none
deriving DecidableEq, Repr

/-! ## `ContentSplitter` (`app/book_parser/content_splitter.py`) -/

/-- The sentence-terminal characters of the splitter's regex
`([。！？\!\?]+)` (`content_splitter.py:65`).  Note the ASCII full stop
`.` is not in the set. -/
def isSentEnd (c : Char) : Bool :=
  c = '。' || c = '！' || c = '？' || c = '!' || c = '?'

/-- Embeds `re.split(r'([。！？\!\?]+)', text)`: the alternating list of text
parts and separator runs, starting and ending with a (possibly empty)
text part.  `fuel` bounds the recursion (instantiated with the input
length, which always suffices). -/
def splitPartsGo : Nat → List Char → List (List Char)
  | 0, l => [l]
  | fuel + 1, l =>
    match l.dropWhile (fun c => !isSentEnd c) with
    | [] => [l.takeWhile (fun c => !isSentEnd c)]
    | rest =>
      l.takeWhile (fun c => !isSentEnd c) :: rest.takeWhile isSentEnd ::
        splitPartsGo fuel (rest.dropWhile isSentEnd)

/-- The parts list of `re.split` with the sentence-ending pattern. -/
def splitParts (l : List Char) : List (List Char) :=
  splitPartsGo l.length l

/-- The pairing loop of `_split_into_sentences`
(`content_splitter.py:68-74`): merge each text part with the separator
run that follows it; a trailing lone part stays as is. -/
def mergePairs : List (List Char) → List (List Char)
  | [] => []
  | [x] => [x]
  | x :: y :: rest => (x ++ y) :: mergePairs rest

/-- Embeds `ContentSplitter._split_into_sentences` (`content_splitter.py:62-76`). -/
def sentencesOf (l : List Char) : List (List Char) :=
  mergePairs (splitParts l)

/-- The greedy packing loop of `split_paragraph`
(`content_splitter.py:32-58`): accumulate sentences into `cur` while the
combined length stays within `B`; otherwise flush `cur` (when nonempty)
and restart from the current sentence; flush the final `cur` when
nonempty.  Returns the pre-`strip` text of each flushed run, in order;
the source constructs the segment dict at each flush. -/
def packRuns (B : Nat) : List (List Char) → List Char → List (List Char)
  | [], cur => if cur = [] then [] else [cur]
  | s :: ss, cur =>
    if cur.length + s.length ≤ B then packRuns B ss (cur ++ s)
    else if cur = [] then packRuns B ss s
    else cur :: packRuns B ss s

/-- The derived-segment id suffix: the first 8 hex characters of the MD5
digest of the run's UTF-8 bytes (`content_splitter.py:40`).  The digest
is taken over the run *before* `strip()`. -/
def hash8 (run : List Char) : String :=
  String.mk ((md5Hex run).data.take 8)

/-- The segment dict built at each flush of `split_paragraph`
(`content_splitter.py:41-46`). -/
def mkRunSeg (parentId : String) (run : List Char) : Seg :=
  { id := parentId ++ "_" ++ hash8 run,
    type := SegType.text,
    content := pyStrip run,
    imagePath := none }

/-- Embeds `ContentSplitter.split_paragraph` (`content_splitter.py:16-60`):
image segments and text at or under the budget pass through unchanged;
oversized text is sentence-split and greedily packed. -/
def split_paragraph (B : Nat) (p : Seg) : List Seg :=
  if p.type = SegType.image then [p]
  else if p.content.length ≤ B then [p]
  else (packRuns B (sentencesOf p.content) []).map (mkRunSeg p.id)

/-! ## `TocParser` (`app/book_parser/toc_parser.py`)

The raw container resources are pre-parsed into inductive data: the XML
and HTML library calls (`ET.fromstring`, BeautifulSoup finds) are the
boundary, and their possible outcomes — exception, missing element, or a
well-formed element tree — are the constructors.  The parser's output
dicts become `TocItem` records. -/

/-- A navigation item dict as built by the three strategies. -/
structure TocItem where
  id : String
  title : String
  level : Nat
  fileName : String
  fragment : Option String
  fullPath : String
  children : List TocItem
deriving Repr

/-- A `navPoint` element of an NCX `navMap`: its `id` attribute
(`''` default), the `navLabel/text` content when present, the `content`
element's `src` (`''` when the element or attribute is missing), and its
nested `navPoint` children. -/
inductive NavPoint where
  | mk (id : String) (label : Option String) (src : String)
      (children : List NavPoint)

/-- The outcome of `ET.fromstring` + `navMap` lookup on the NCX resource
(`toc_parser.py:66-76`): the parse raised, the `navMap` element is
missing, or a list of top-level `navPoint`s. -/
inductive NcxParse where
  | exn
  | noNavMap
  | ok (points : List NavPoint)

/-- An `li` element of an EPUB3 navigation list: `find('a')` yields the
anchor's text and `href` when an anchor exists, and `find('ol')` yields
the nested ordered list when one exists. -/
inductive LiItem where
  | mk (a : Option (String × String)) (childOl : Option (List LiItem))

/-- The outcome of BeautifulSoup navigation-document inspection
(`toc_parser.py:136-151`): no `nav` element, no `ol` inside it, or the
`ol`'s direct `li` children. -/
inductive NavDocParse where
  | noNav
  | noOl
  | ok (items : List LiItem)

/-- A spine item that `get_item_with_id` resolved: its file name and the
title `_extract_title_from_item` scraped from it, if any. -/
structure SpineFile where
  name : String
  extractedTitle : Option String

/-- A document container as `TocParser` observes it: the NCX resource's
parse outcome when an `ITEM_NAVIGATION` item exists, the navigation
document's parse outcome when a `nav`-property chapter exists, and the
spine (`None` entries are ids `get_item_with_id` could not resolve). -/
structure Book where
  ncx : Option NcxParse
  nav : Option NavDocParse
  spine : List (Option SpineFile)

/-- Embeds `href.split('#', 1)` (`toc_parser.py:99-101`): file name before the
first `#`, fragment after it (or `None`). -/
def splitFrag (href : String) : String × Option String :=
  let pre := href.data.takeWhile (· ≠ '#')
  let rest := href.data.dropWhile (· ≠ '#')
  match rest with
  | [] => (String.mk pre, none)
  | _ :: frag => (String.mk pre, some (String.mk frag))

/-- The recursion of `TocParser._parse_nav_points`
(`toc_parser.py:82-128`), made structural on a fuel bound (instantiated
with `navFuel`; the `0` case is unreachable on the inputs considered
here).  A missing or empty `navLabel` text falls back to the placeholder
title `"未命名章节"`.  (The `toc_map` side store is not modelled on this
strategy: it never feeds back into the produced items.) -/
def parseNavPointsGo : Nat → List NavPoint → Nat → List TocItem
  | 0, _, _ => []
  | _ + 1, [], _ => []
  | fuel + 1, NavPoint.mk i lbl src cs :: rest, level =>
    let title := match lbl with
      | some t => if t ≠ "" then t else "未命名章节"
      | none => "未命名章节"
    let (fn, frag) := splitFrag src
    { id := i, title := title, level := level, fileName := fn,
      fragment := frag, fullPath := src,
      children := parseNavPointsGo fuel cs (level + 1) } ::
      parseNavPointsGo fuel rest level

/-- An ample recursion budget for the fuel-bounded tree walks: the
Python recursion is unbounded, and every input considered in this
development stays far below this bound, so the fuel never runs out
on them. -/
def navFuel : Nat := 1000000

/-- Embeds `TocParser._parse_nav_points` (`toc_parser.py:82-128`). -/
def parseNavPoints (pts : List NavPoint) (level : Nat) : List TocItem :=
  parseNavPointsGo navFuel pts level

/-- Embeds `TocParser._parse_nav_items` (`toc_parser.py:153-202`): recursively
convert `li` elements, threading the `toc_map` key set (modelled as the
ordered list of keys, since only `len(self.toc_map)` and key presence
matter).  The synthetic id `nav_<len(toc_map)>` is computed *before* the
child list is parsed, but the id is inserted into `toc_map` only *after*
the recursive call, mirroring the statement order of the source.
`li` elements without an anchor are skipped. -/
def parseNavItemsGo : Nat → List LiItem → Nat → List String →
    List TocItem × List String
  | 0, _, _, keys => ([], keys)
  | _ + 1, [], _, keys => ([], keys)
  | fuel + 1, LiItem.mk none _ :: rest, level, keys =>
    parseNavItemsGo fuel rest level keys
  | fuel + 1, LiItem.mk (some (txt, href)) childOl :: rest, level, keys =>
    let navId := "nav_" ++ toString keys.length
    let (fn, frag) := splitFrag href
    let (children, keys1) :=
      match childOl with
      | some cs => parseNavItemsGo fuel cs (level + 1) keys
      | none => ([], keys)
    let item : TocItem :=
      { id := navId, title := String.mk (pyStrip txt.data), level := level,
        fileName := fn, fragment := frag, fullPath := href,
        children := children }
    let keys2 := if navId ∈ keys1 then keys1 else keys1 ++ [navId]
    let (restItems, keys3) := parseNavItemsGo fuel rest level keys2
    (item :: restItems, keys3)

/-- Embeds `TocParser._parse_nav_items` (`toc_parser.py:153-202`), with the
fuel bound instantiated by `navFuel`. -/
def parseNavItems (lis : List LiItem) (level : Nat) (keys : List String) :
    List TocItem × List String :=
  parseNavItemsGo navFuel lis level keys

/-- The spine item built at index `i` (`toc_parser.py:219-231`): id
`spine_<i>`, the scraped title or the placeholder `"章节 <i+1>"`. -/
def mkSpineItem (i : Nat) (f : SpineFile) : TocItem :=
  { id := "spine_" ++ toString i,
    title := f.extractedTitle.getD ("章节 " ++ toString (i + 1)),
    level := 0, fileName := f.name, fragment := none,
    fullPath := f.name, children := [] }

/-- The enumeration loop of `_create_spine_toc` (`toc_parser.py:204-242`)
with explicit running index: unresolvable spine ids are skipped. -/
def createSpineTocAux : Nat → List (Option SpineFile) → List TocItem
  | _, [] => []
  | i, none :: rest => createSpineTocAux (i + 1) rest
  | i, some f :: rest => mkSpineItem i f :: createSpineTocAux (i + 1) rest

/-- Embeds `TocParser._create_spine_toc` (`toc_parser.py:204-242`). -/
def createSpineToc (spine : List (Option SpineFile)) : List TocItem :=
  createSpineTocAux 0 spine

/-- Embeds `TocParser._parse_ncx` (`toc_parser.py:57-80`): an `ET` exception or
a missing `navMap` falls back to the spine toc; otherwise the `navMap`'s
`navPoint`s are converted. -/
def parseNcx (b : Book) (p : NcxParse) : List TocItem :=
  match p with
  | NcxParse.exn => createSpineToc b.spine
  | NcxParse.noNavMap => createSpineToc b.spine
  | NcxParse.ok pts => parseNavPoints pts 0

/-- Embeds `TocParser._parse_nav` (`toc_parser.py:130-151`): a missing `nav` or
`ol` element falls back to the spine toc; otherwise the list items are
converted starting from an empty `toc_map`. -/
def parseNavDoc (b : Book) (p : NavDocParse) : List TocItem :=
  match p with
  | NavDocParse.noNav => createSpineToc b.spine
  | NavDocParse.noOl => createSpineToc b.spine
  | NavDocParse.ok lis => (parseNavItems lis 0 []).1

/-- Embeds `TocParser.parse_toc` (`toc_parser.py:27-40`): try the NCX resource
first, then the EPUB3 navigation document, then the spine fallback. -/
def parse_toc (b : Book) : List TocItem :=
  match b.ncx with
  | some p => parseNcx b p
  | none =>
    match b.nav with
    | some p => parseNavDoc b p
    | none => createSpineToc b.spine

/-- All ids of a navigation forest, in pre-order (fuel-bounded
recursion, fuel instantiated with `navFuel`). -/
def collectIdsGo : Nat → List TocItem → List String
  | 0, _ => []
  | _ + 1, [] => []
  | fuel + 1, ⟨i, _, _, _, _, _, cs⟩ :: rest =>
    i :: (collectIdsGo fuel cs ++ collectIdsGo fuel rest)

/-- All ids of a navigation forest, in pre-order. -/
def collectIds (l : List TocItem) : List String :=
  collectIdsGo navFuel l

/-! ## `DeepSeekProcessor` (`app/text_processor/deepseek_processor.py`)

The two cache directories are modelled as association lists keyed by the
MD5 hex digest of the input text; the HTTP call is an oracle
(`none` = exception or non-200 response, `some raw` = the response
message content). -/

/-- A DeepSeek cache file (`cache_data`, `deepseek_processor.py:91-96`);
the `timestamp`/`book_id` bookkeeping fields are omitted. -/
structure DsEntry where
  original : List Char
  result : List Char
deriving DecidableEq, Repr

/-- The two DeepSeek cache directories. -/
structure DsState where
  globalCache : List (String × DsEntry)
  bookCache : List (String × DsEntry)
deriving DecidableEq, Repr

/-- Insert-or-overwrite into an association list (a file write). -/
def assocInsert (l : List (String × α)) (k : String) (v : α) :
    List (String × α) :=
  (k, v) :: l.filter (·.1 ≠ k)

/-- Embeds `_get_cache_path` + existence (`deepseek_processor.py:38-50`): the
path is the global one when that file exists, otherwise the
book-specific one; this resolves to the entry the chosen path holds. -/
def dsCacheEntryAt (st : DsState) (key : String) : Option DsEntry :=
  match st.globalCache.lookup key with
  | some e => some e
  | none => st.bookCache.lookup key

/-- Embeds `DeepSeekProcessor._is_cached` (`deepseek_processor.py:52-58`). -/
def dsIsCached (enabled : Bool) (st : DsState) (text : List Char) : Bool :=
  if !enabled then false
  else (dsCacheEntryAt st (md5Hex text)).isSome

/-- Embeds `DeepSeekProcessor._get_from_cache` (`deepseek_processor.py:60-77`):
`None` when the cache is disabled or the file is missing, otherwise the
stored `result`. -/
def dsGetFromCache (enabled : Bool) (st : DsState) (text : List Char) :
    Option (List Char) :=
  if !enabled then none
  else (dsCacheEntryAt st (md5Hex text)).map (·.result)

/-- Embeds `DeepSeekProcessor._save_to_cache` (`deepseek_processor.py:79-109`):
a no-op when the cache is disabled, otherwise write the entry into both
the global and the book-specific directory. -/
def dsSaveToCache (enabled : Bool) (st : DsState) (text result : List Char) :
    DsState :=
  if !enabled then st
  else
    let key := md5Hex text
    let entry : DsEntry := { original := text, result := result }
    { globalCache := assocInsert st.globalCache key entry,
      bookCache := assocInsert st.bookCache key entry }

/-- Whether `pat` is a leading piece of `l`. -/
def leadsWith : List Char → List Char → Bool
  | [], _ => true
  | _ :: _, [] => false
  | p :: ps, c :: cs => p = c && leadsWith ps cs

/-- Python `str.replace(pat, '')` for a nonempty pattern: remove
non-overlapping occurrences left to right.  `fuel` bounds the recursion
(instantiated with the input length). -/
def removeAllGo : Nat → List Char → List Char → List Char
  | 0, _, l => l
  | _ + 1, _, [] => []
  | fuel + 1, pat, c :: cs =>
    if leadsWith pat (c :: cs) then
      removeAllGo fuel pat ((c :: cs).drop pat.length)
    else c :: removeAllGo fuel pat cs

/-- Python `str.replace(pat, '')`. -/
def removeAll (pat l : List Char) : List Char := removeAllGo l.length pat l

/-- The response clean-up of `convert_to_oral`
(`deepseek_processor.py:154-157`): strip surrounding quotes, delete the
two boilerplate phrases, strip whitespace. -/
def cleanOral (raw : List Char) : List Char :=
  pyStrip (removeAll "以下是适合有声书朗读的口语化表达：".data
    (removeAll "以下是转换后的口语化表达：".data
      (pyStripChars [Char.ofNat 34, Char.ofNat 39] raw)))

/-- Embeds `DeepSeekProcessor.convert_to_oral` (`deepseek_processor.py:111-169`):
return a nonempty cached result; otherwise fall back to the original
text when no API key is configured or the call fails; on success, clean
the response, save it to both cache tiers, and return it. -/
def convert_to_oral (enabled apiKey : Bool) (api : Option (List Char))
    (st : DsState) (text : List Char) : List Char × DsState :=
  let hit :=
    if dsIsCached enabled st text then
      match dsGetFromCache enabled st text with
      | some r => if r ≠ [] then some r else none
      | none => none
    else none
  match hit with
  | some r => (r, st)
  | none =>
    if !apiKey then (text, st)
    else
      match api with
      | none => (text, st)
      | some raw =>
        let oral := cleanOral raw
        (oral, dsSaveToCache enabled st text oral)

/-- Embeds `DeepSeekProcessor.process_paragraph`
(`deepseek_processor.py:171-186`): image segments pass through; for text
segments the dict copy gets `original_content` set to the original text
and `content` replaced by the converted text. -/
def dsProcessParagraph (enabled apiKey : Bool) (api : Option (List Char))
    (st : DsState) (p : Seg) : Seg × DsState :=
  if p.type = SegType.image then (p, st)
  else
    let (oral, st') := convert_to_oral enabled apiKey api st p.content
    ({ p with originalContent := some p.content, content := oral }, st')

/-- A chapter dict (only the fields the fan-out stages touch). -/
structure Chapter where
  id : String
  title : String
  paragraphs : List Seg
deriving DecidableEq, Repr

/-- Embeds `DeepSeekProcessor.process_chapters`
(`deepseek_processor.py:188-204`): `ThreadPoolExecutor.map` yields
results in submission order by the stdlib contract, independent of
completion order, so the fan-out over one chapter's paragraphs is an
order-preserving map of the per-paragraph outcome `f`. -/
def dsProcessChapters (f : Seg → Seg) (chapters : List Chapter) :
    List Chapter :=
  chapters.map fun c => { c with paragraphs := c.paragraphs.map f }

/-! ## `AzureTTS` (`app/voice_generator/azure_tts.py`)

The global TTS cache (`CACHE_DIR/tts_cache`) and the book audio
directory (`TEMP_DIR/{book_id}_audio`) are modelled as a record:
`.mp3` presence as lists of file stems (a content hash or a paragraph
id), `.json` metadata as association lists.  Path strings are rendered
as `"book/<stem>.mp3"` / `"global/<hash>.mp3"`.  The Azure synthesizer
is an oracle. -/

/-- A TTS metadata file (duration and word timings; the bookkeeping
flags `created_at`, `copied_from_global`, `saved_to_global` are
omitted). -/
structure TtsMeta where
  duration : Rat
  wordTimings : List WordTiming
deriving DecidableEq, Repr

/-- The filesystem state `AzureTTS` touches. -/
structure TtsState where
  globalAudio : List String
  globalMeta : List (String × TtsMeta)
  bookAudio : List String
  bookMeta : List (String × TtsMeta)
deriving DecidableEq, Repr

/-- The dict `generate_speech` returns. -/
structure SpeechInfo where
  audioPath : String
  duration : Rat
  wordTimings : List WordTiming
deriving DecidableEq, Repr

/-- Embeds `str(self._get_audio_path(...))` for a book-directory stem. -/
def bookAudioPath (stem : String) : String := "book/" ++ stem ++ ".mp3"

/-- Record a `.mp3` write (idempotent on the stem set). -/
def addStem (l : List String) (stem : String) : List String :=
  if stem ∈ l then l else l ++ [stem]

/-- Embeds `AzureTTS._is_in_global_cache` (`azure_tts.py:86-93`): false when
the cache is disabled, else both the audio and the metadata file must
exist. -/
def ttsIsInGlobalCache (enabled : Bool) (st : TtsState) (h : String) : Bool :=
  if !enabled then false
  else h ∈ st.globalAudio && (st.globalMeta.lookup h).isSome

/-- Embeds `AzureTTS._is_generated` (`azure_tts.py:95-116`): false when the
cache is disabled; with truthy content, check the global cache then the
hash-named book files; otherwise the id-named book files. -/
def ttsIsGenerated (enabled : Bool) (st : TtsState) (pid : String)
    (content : Option (List Char)) : Bool :=
  if !enabled then false
  else
    match content with
    | some c =>
      if c ≠ [] then
        let h := md5Hex c
        ttsIsInGlobalCache enabled st h ||
          (h ∈ st.bookAudio && (st.bookMeta.lookup h).isSome)
      else pid ∈ st.bookAudio && (st.bookMeta.lookup pid).isSome
    | none => pid ∈ st.bookAudio && (st.bookMeta.lookup pid).isSome

/-- Embeds `AzureTTS._copy_from_global_cache` (`azure_tts.py:118-151`): copy
the audio and metadata files into the book directory under the content
hash and return the copied payload.  (Only called under the
`_is_in_global_cache` guard; the `getD` default is unreachable then.) -/
def ttsCopyFromGlobal (st : TtsState) (c : List Char) (_pid : String) :
    SpeechInfo × TtsState :=
  let h := md5Hex c
  let meta := (st.globalMeta.lookup h).getD { duration := 0, wordTimings := [] }
  let st' := { st with
    bookAudio := addStem st.bookAudio h,
    bookMeta := assocInsert st.bookMeta h meta }
  ({ audioPath := bookAudioPath h, duration := meta.duration,
     wordTimings := meta.wordTimings }, st')

/-- Embeds `AzureTTS._save_to_global_cache` (`azure_tts.py:153-176`): a no-op
when the cache is disabled, else copy the audio and write the metadata
into the global cache under the content hash. -/
def ttsSaveToGlobalCache (enabled : Bool) (st : TtsState) (c : List Char)
    (meta : TtsMeta) : TtsState :=
  if !enabled then st
  else
    let h := md5Hex c
    { st with
      globalAudio := addStem st.globalAudio h,
      globalMeta := assocInsert st.globalMeta h meta }

/-- Embeds `AzureTTS._generate_empty_audio` (`azure_tts.py:178-203`): create a
silent id-named audio file if absent, always (re)write the id-named
metadata, and return a placeholder payload. -/
def ttsGenerateEmptyAudio (st : TtsState) (pid : String) (dur : Rat) :
    SpeechInfo × TtsState :=
  let st' := { st with
    bookAudio := addStem st.bookAudio pid,
    bookMeta := assocInsert st.bookMeta pid
      { duration := dur, wordTimings := [] } }
  ({ audioPath := bookAudioPath pid, duration := dur, wordTimings := [] }, st')

/-- The outcome of `speak_ssml_async(...).get()` for one call. -/
inductive SynthOutcome where
  | completed (timings : List WordTiming)
  | failed
  | exn

/-- Embeds `AzureTTS.generate_speech` (`azure_tts.py:205-347`): empty audio for
images and blank text; then global-cache hit (copy down), book-cache
hit, missing-configuration fallback; otherwise call the synthesizer,
which writes the hash-named audio file, then write the hash-named book
metadata, save to the global cache, and return; synthesis failure or an
exception yields a 1-second placeholder. -/
def generate_speech (enabled : Bool) (hasConfig : Bool)
    (synth : SynthOutcome) (st : TtsState) (p : Seg) :
    SpeechInfo × TtsState :=
  let pid := p.id
  if p.type = SegType.image then ttsGenerateEmptyAudio st pid 5
  else
    let text := p.content
    if pyStrip text = [] then ttsGenerateEmptyAudio st pid 1
    else
      let h := md5Hex text
      if ttsIsInGlobalCache enabled st h then ttsCopyFromGlobal st text pid
      else if ttsIsGenerated enabled st pid (some text) then
        let meta :=
          match st.bookMeta.lookup h with
          | some m => m
          | none => (st.bookMeta.lookup pid).getD { duration := 0, wordTimings := [] }
        let path := if h ∈ st.bookAudio then bookAudioPath h else bookAudioPath pid
        ({ audioPath := path, duration := meta.duration,
           wordTimings := meta.wordTimings }, st)
      else if !hasConfig then ttsGenerateEmptyAudio st pid 1
      else
        match synth with
        | SynthOutcome.completed timings =>
          let st1 := { st with bookAudio := addStem st.bookAudio h }
          let dur :=
            match timings.getLast? with
            | some last => last.audioOffset + last.duration
            | none => (text.length : Rat) / 10
          let meta : TtsMeta := { duration := dur, wordTimings := timings }
          let st2 := { st1 with bookMeta := assocInsert st1.bookMeta h meta }
          let st3 := ttsSaveToGlobalCache enabled st2 text meta
          ({ audioPath := bookAudioPath h, duration := dur,
             wordTimings := timings }, st3)
        | SynthOutcome.failed => ttsGenerateEmptyAudio st pid 1
        | SynthOutcome.exn => ttsGenerateEmptyAudio st pid 1

/-- The dict update of `process_paragraphs` (`azure_tts.py:362-367`):
copy the paragraph and add the three audio keys. -/
def applySpeech (p : Seg) (info : SpeechInfo) : Seg :=
  { p with
    audioPath := some info.audioPath,
    duration := some info.duration,
    wordTimings := some info.wordTimings }

/-- Stable insertion (ties keep the incoming element first, matching
stable-sort semantics for an element that precedes the list). -/
def stableInsert (key : α → Nat) (x : α) : List α → List α
  | [] => [x]
  | y :: ys =>
    if key x ≤ key y then x :: y :: ys else y :: stableInsert key x ys

/-- Stable sort by a `Nat` key: the model of Python `list.sort(key=...)`
(Timsort is stable, and the stable sort by a key is unique). -/
def stableSortByKey (key : α → Nat) : List α → List α
  | [] => []
  | x :: xs => stableInsert key x (stableSortByKey key xs)

/-- One iteration of the result loop of `AzureTTS.process_paragraphs`
(`azure_tts.py:357-372`): on success the copied paragraph gains the
three audio keys; a raised task (`results p = none`) falls back to the
original paragraph. -/
def collectOutcome (results : Seg → Option SpeechInfo) (p : Seg) : Seg :=
  match results p with
  | some info => applySpeech p info
  | none => p

/-- Embeds `AzureTTS.process_paragraphs` (`azure_tts.py:349-377`): the result
loop iterates the futures dict in insertion (= submission) order and
blocks on each `future.result()`, so the collected list is in submission
order for every completion order of the pool.  The final sort
(`azure_tts.py:375`) orders by the index of the *first* original
paragraph whose `id` matches. -/
def process_paragraphs (results : Seg → Option SpeechInfo)
    (paras : List Seg) : List Seg :=
  stableSortByKey (fun p => paras.findIdx fun q => q.id == p.id)
    (paras.map (collectOutcome results))

/-! ## Spec-side definitions

Definitions in this section follow the specification's words, for
comparison with the source-derived definitions above. -/

/-- Modelled from the spec: the sentence-terminal set of §4.2, "the set
of `. ! ?` and their CJK equivalents" — the code's set plus the ASCII
full stop. -/
def claimIsSentEnd (c : Char) : Bool :=
  c = '。' || c = '！' || c = '？' || c = '!' || c = '?' || c = '.'

/-- Modelled from the spec: `re.split`-style part list over the spec's
boundary set (same shape as `splitPartsGo`). -/
def claimSplitPartsGo : Nat → List Char → List (List Char)
  | 0, l => [l]
  | fuel + 1, l =>
    match l.dropWhile (fun c => !claimIsSentEnd c) with
    | [] => [l.takeWhile (fun c => !claimIsSentEnd c)]
    | rest =>
      l.takeWhile (fun c => !claimIsSentEnd c) :: rest.takeWhile claimIsSentEnd ::
        claimSplitPartsGo fuel (rest.dropWhile claimIsSentEnd)

/-- Modelled from the spec: the sentence list induced by the spec's
boundary set. -/
def claimSentencesOf (l : List Char) : List (List Char) :=
  mergePairs (claimSplitPartsGo l.length l)

/-- Relation `Grouped ss runs`: `runs` partitions the sentence list `ss` into
consecutive blocks, each run being the concatenation of one block (so no
sentence is cut across two runs); a trailing group of empty sentences
may be absorbed into no run at all. -/
inductive Grouped : List (List Char) → List (List Char) → Prop
  | base {ss : List (List Char)} (h : ∀ s ∈ ss, s = []) : Grouped ss []
  | run {rest runs : List (List Char)} (block : List (List Char))
      (hne : block.flatten ≠ [])
      (htail : Grouped rest runs) :
      Grouped (block ++ rest) (block.flatten :: runs)

/-! ## Concrete inputs used by counterexamples and witnesses -/

/-- A navigation document with one top-level entry containing one nested
entry — the smallest input on which `_parse_nav_items` assigns
`nav_<len(toc_map)>` before the child recursion has populated
`toc_map`. -/
def navDupBook : Book :=
  { ncx := none,
    nav := some (NavDocParse.ok
      [LiItem.mk (some ("Chapter A", "a.html"))
        (some [LiItem.mk (some ("Section A1", "a1.html")) none])]),
    spine := [] }

/-- A container whose NCX resource raises on parse while a well-formed
navigation document and a resolvable spine are both present. -/
def c2Book : Book :=
  { ncx := some NcxParse.exn,
    nav := some (NavDocParse.ok [LiItem.mk (some ("Nav Chapter", "c.html")) none]),
    spine := [some { name := "s0.xhtml", extractedTitle := some "First" }] }

/-- Oversized text paragraph whose second greedy run carries a leading
space (`' bbb!'`), so its pre-`strip` and post-`strip` digests differ. -/
def c5P : Seg := { id := "p", type := SegType.text, content := "aaaa! bbb!".data }

/-- Oversized text paragraph whose only sentence-terminal punctuation is
the ASCII full stop. -/
def c6P : Seg := { id := "p", type := SegType.text, content := "aa. bb. cc.".data }

/-- Paragraphs with a duplicated id (`"a"`), as the segmenter can
produce (identical split text yields identical derived ids). -/
def c7A : Seg := { id := "a", type := SegType.text, content := "x".data }

/-- Second fan-out paragraph, distinct id. -/
def c7B : Seg := { id := "b", type := SegType.text, content := "y".data }

/-- Third fan-out paragraph, sharing its id with the first. -/
def c7C : Seg := { id := "a", type := SegType.text, content := "z".data }

/-- A fixed successful synthesis payload for the fan-out oracle. -/
def c7Info : SpeechInfo := { audioPath := "au.mp3", duration := 1, wordTimings := [] }

/-- Fan-out oracle: every task completes successfully with `c7Info`. -/
def c7Results : Seg → Option SpeechInfo := fun _ => some c7Info

/-- A DeepSeek cache entry for the text `"hello"`. -/
def c4Entry : DsEntry := { original := "hello".data, result := "rewritten".data }

/-- DeepSeek cache state with a global-tier entry for `"hello"` and an
empty book tier. -/
def c4St : DsState :=
  { globalCache := [(md5Hex "hello".data, c4Entry)], bookCache := [] }

/-- Empty TTS filesystem state. -/
def ttsEmptySt : TtsState := { globalAudio := [], globalMeta := [], bookAudio := [], bookMeta := [] }

/-- TTS state with a global-cache entry for the text `"hi"`
(`49f68a5c8493ec2c0bf489821c21fc3b` is `md5('hi')`) and an empty book
directory. -/
def c4TtsSt : TtsState :=
  { globalAudio := ["49f68a5c8493ec2c0bf489821c21fc3b"],
    globalMeta := [("49f68a5c8493ec2c0bf489821c21fc3b",
      { duration := 3, wordTimings := [] })],
    bookAudio := [], bookMeta := [] }

/-- A plain text paragraph for the TTS counterexamples. -/
def c8P : Seg := { id := "p1", type := SegType.text, content := "hi".data }

/-- A plain text paragraph for the rewriting counterexample. -/
def c9P : Seg := { id := "s1", type := SegType.text, content := "hello world".data }

/-! ## Claim C1 — checkpoint resume skips completed stages -/

/-- C1: the claim fails on the code.  `generate` gates stages with
Python string `<=` on stage names, and lexicographic order disagrees
with pipeline order: with a checkpoint recording `generate_speech` as
completed, the code re-executes `split_content`, `process_text` and
`generate_speech` (because `"generate_speech" <= "parse_book"` etc. hold
lexicographically), instead of resuming at `render_html` as the spec's
ordered enumeration demands. -/
theorem C1_resume_reruns_completed_stages :
    stagesExecuted (some "generate_speech") =
      ["split_content", "process_text", "generate_speech",
       "render_html", "record_videos"] ∧
    specResume "generate_speech" = ["render_html", "record_videos"] ∧
    stagesExecuted (some "generate_speech") ≠ specResume "generate_speech" := by
  decide

/-! ## Claim C10 — `use_cache = False` disables persistence and resume -/

/-- C10: with `use_cache` false, `_save_progress` writes nothing,
`_load_progress` loads nothing (whatever checkpoint files earlier runs
left behind), and `generate` therefore runs every gated stage from the
first. -/
theorem C10_no_cache_runs_everything (fs : ProgressFS) (stage : String)
    (d : Data) :
    saveProgress false fs stage d = fs ∧
    loadProgress false fs = none ∧
    stagesExecuted none = pipelineStages := by
  refine ⟨rfl, rfl, ?_⟩
  decide

/-- C10 witness: the no-cache run ignores a concrete pre-existing
checkpoint. -/
theorem C10_no_cache_runs_everything_witness :
    saveProgress false ⟨some "render_html", [("render_html", "out")]⟩
        "record_videos" "data" =
      ⟨some "render_html", [("render_html", "out")]⟩ ∧
    loadProgress false ⟨some "render_html", [("render_html", "out")]⟩ = none ∧
    stagesExecuted none = pipelineStages :=
  C10_no_cache_runs_everything ⟨some "render_html", [("render_html", "out")]⟩
    "record_videos" "data"

/-! ## Claim C3 — navigation-tree ids are unique -/

/-- C3: the claim fails on the code.  `_parse_nav_items` computes the
synthetic id `nav_<len(toc_map)>` before recursing into the nested list
but registers it in `toc_map` only afterwards, so on a navigation
document with one nested entry the parent and its child both receive the
id `nav_0`. -/
theorem C3_nav_ids_duplicate :
    collectIds (parse_toc navDupBook) = ["nav_0", "nav_0"] ∧
    ¬ (collectIds (parse_toc navDupBook)).Nodup := by
  decide

/-! ## Claim C2 — navigation resolution fallthrough -/

/-- Helper for the spine contract: the entry built for a resolvable
spine id at offset `i` is in the toc produced from running index `j`. -/
theorem mkSpineItem_mem_aux :
    ∀ (spine : List (Option SpineFile)) (j i : Nat) (f : SpineFile),
      spine[i]? = some (some f) →
      mkSpineItem (j + i) f ∈ createSpineTocAux j spine := by
  intro spine
  induction spine with
  | nil => intro j i f h; simp at h
  | cons hd tl ih =>
    intro j i f h
    cases i with
    | zero =>
      simp at h
      subst h
      simp [createSpineTocAux]
    | succ i' =>
      simp at h
      have e : j + (i' + 1) = (j + 1) + i' := by omega
      cases hd with
      | none =>
        rw [e]
        simpa [createSpineTocAux] using ih (j + 1) i' f h
      | some g =>
        rw [e]
        simp only [createSpineTocAux, List.mem_cons]
        exact Or.inr (ih (j + 1) i' f h)

/-- C2 counterexample: the claim's "falls through to the next strategy"
fails on the code.  On a container whose NCX parse raises while a
well-formed navigation document exists, `parse_toc` returns the spine
fallback (`spine_0`), not the inline-nav result (`nav_0`): `_parse_ncx`
jumps straight to `_create_spine_toc`, skipping the nav strategy. -/
theorem C2_ncx_failure_skips_nav_strategy :
    collectIds (parse_toc c2Book) = ["spine_0"] ∧
    collectIds (parseNavDoc c2Book
      (NavDocParse.ok [LiItem.mk (some ("Nav Chapter", "c.html")) none])) =
      ["nav_0"] ∧
    collectIds (parse_toc c2Book) ≠ ["nav_0"] := by
  decide

/-- C2 amended: resolution is total by construction and every modelled
failure — an NCX exception or missing `navMap`, a navigation document
without `nav` or `ol`, or no navigation resource at all — falls through
directly to the spine fallback (for NCX failures this skips the
inline-nav strategy), and the spine fallback contains the `spine_<i>`
entry for every spine position whose id resolves to a content file. -/
theorem C2_failures_fall_to_spine (b : Book) :
    (b.ncx = some NcxParse.exn → parse_toc b = createSpineToc b.spine) ∧
    (b.ncx = some NcxParse.noNavMap → parse_toc b = createSpineToc b.spine) ∧
    (b.ncx = none → b.nav = some NavDocParse.noNav →
      parse_toc b = createSpineToc b.spine) ∧
    (b.ncx = none → b.nav = some NavDocParse.noOl →
      parse_toc b = createSpineToc b.spine) ∧
    (b.ncx = none → b.nav = none → parse_toc b = createSpineToc b.spine) ∧
    (∀ (i : Nat) (f : SpineFile), b.spine[i]? = some (some f) →
      mkSpineItem i f ∈ createSpineToc b.spine) := by
  refine ⟨?_, ?_, ?_, ?_, ?_, ?_⟩
  · intro h; simp [parse_toc, h, parseNcx]
  · intro h; simp [parse_toc, h, parseNcx]
  · intro h1 h2; simp [parse_toc, h1, h2, parseNavDoc]
  · intro h1 h2; simp [parse_toc, h1, h2, parseNavDoc]
  · intro h1 h2; simp [parse_toc, h1, h2]
  · intro i f h
    simpa using mkSpineItem_mem_aux b.spine 0 i f h

/-- C2 witness: the amended theorem applied to the concrete container
`c2Book`. -/
theorem C2_failures_fall_to_spine_witness :
    parse_toc c2Book = createSpineToc c2Book.spine ∧
    mkSpineItem 0 { name := "s0.xhtml", extractedTitle := some "First" } ∈
      createSpineToc c2Book.spine := by
  obtain ⟨h1, _, _, _, _, h6⟩ := C2_failures_fall_to_spine c2Book
  exact ⟨h1 rfl, h6 0 _ rfl⟩

/-! ## Claim C4 — global cache hits are copied into the scope-local tier -/

/-- C4 counterexample: the claim fails for the text-rewriting cache.
With a global-tier entry for `"hello"` and an empty book tier,
`convert_to_oral` reports the hit and returns the cached result, but the
book tier is left empty — `_get_from_cache` performs no copy-down. -/
theorem C4_rewriting_global_hit_not_copied_down :
    dsIsCached true c4St "hello".data = true ∧
    (c4St.globalCache.lookup (md5Hex "hello".data)).isSome = true ∧
    convert_to_oral true true none c4St "hello".data =
      ("rewritten".data, c4St) ∧
    (convert_to_oral true true none c4St "hello".data).2.bookCache = [] := by
  decide

/-- C4 amended: the copy-down holds for the speech-synthesis cache.  On
a global hit, `generate_speech` copies the audio and metadata into the
book directory under the content hash before returning the payload. -/
theorem C4_speech_global_hit_copied_down (st : TtsState) (p : Seg)
    (m : TtsMeta) (cfg : Bool) (synth : SynthOutcome)
    (hty : p.type = SegType.text) (hne : pyStrip p.content ≠ [])
    (ha : md5Hex p.content ∈ st.globalAudio)
    (hm : st.globalMeta.lookup (md5Hex p.content) = some m) :
    generate_speech true cfg synth st p =
      ({ audioPath := bookAudioPath (md5Hex p.content),
         duration := m.duration, wordTimings := m.wordTimings },
       { st with
          bookAudio := addStem st.bookAudio (md5Hex p.content),
          bookMeta := assocInsert st.bookMeta (md5Hex p.content) m }) := by
  have hglob : ttsIsInGlobalCache true st (md5Hex p.content) = true := by
    simp [ttsIsInGlobalCache, ha, hm]
  simp [generate_speech, hty, hne, hglob, ttsCopyFromGlobal, hm]

/-- C4 witness: the copy-down theorem applied to a concrete state
holding `md5("hi")` in the global tier. -/
theorem C4_speech_global_hit_copied_down_witness :
    generate_speech true true SynthOutcome.failed c4TtsSt c8P =
      ({ audioPath := bookAudioPath (md5Hex "hi".data),
         duration := 3, wordTimings := [] },
       { c4TtsSt with
          bookAudio := addStem c4TtsSt.bookAudio (md5Hex "hi".data),
          bookMeta := assocInsert c4TtsSt.bookMeta (md5Hex "hi".data)
            { duration := 3, wordTimings := [] } }) :=
  C4_speech_global_hit_copied_down c4TtsSt c8P
    { duration := 3, wordTimings := [] } true SynthOutcome.failed rfl
    (by decide) (by decide) (by decide)

/-! ## Claim C8 — disabling the cache -/

/-- With the cache switch off, `generate_speech` never touches the
global tier (shared helper for the C8 analysis). -/
theorem generate_speech_disabled_global_untouched (cfg : Bool)
    (synth : SynthOutcome) (st : TtsState) (p : Seg) :
    (generate_speech false cfg synth st p).2.globalAudio = st.globalAudio ∧
    (generate_speech false cfg synth st p).2.globalMeta = st.globalMeta := by
  unfold generate_speech
  by_cases h1 : p.type = SegType.image
  · simp [h1, ttsGenerateEmptyAudio]
  · simp only [if_neg h1]
    by_cases h2 : pyStrip p.content = []
    · simp [h2, ttsGenerateEmptyAudio]
    · rw [if_neg h2]
      have hg : ttsIsInGlobalCache false st (md5Hex p.content) = false := rfl
      have hb : ttsIsGenerated false st p.id (some p.content) = false := rfl
      rw [hg, hb]
      cases cfg
      · simp [ttsGenerateEmptyAudio]
      · cases synth <;> simp [ttsGenerateEmptyAudio, ttsSaveToGlobalCache]

/-- C8 counterexample: the claim's "store writes nothing to either tier"
fails for the speech cache.  With the switch off, a successful synthesis
still writes the hash-named audio and metadata files into the
scope-local (book) directory. -/
theorem C8_disabled_speech_store_writes_book_tier :
    (generate_speech false true (SynthOutcome.completed [])
        ttsEmptySt c8P).2.bookAudio =
      ["49f68a5c8493ec2c0bf489821c21fc3b"] ∧
    ((generate_speech false true (SynthOutcome.completed [])
        ttsEmptySt c8P).2.bookMeta).map (·.1) =
      ["49f68a5c8493ec2c0bf489821c21fc3b"] := by
  decide

/-- C8 amended: with the switch off every lookup misses (for both
caches, including keys stored while the cache was enabled), the
text-rewriting store writes nothing to either tier, and the
speech-synthesis store skips the global tier — but a successful
synthesis still writes into the scope-local book directory. -/
theorem C8_disabled_cache_behaviour (stD : DsState) (stT : TtsState)
    (text result : List Char) (pid h : String)
    (content : Option (List Char)) (meta : TtsMeta) (cfg : Bool)
    (synth : SynthOutcome) (p : Seg) :
    dsIsCached false stD text = false ∧
    dsGetFromCache false stD text = none ∧
    dsSaveToCache false stD text result = stD ∧
    ttsIsInGlobalCache false stT h = false ∧
    ttsIsGenerated false stT pid content = false ∧
    ttsSaveToGlobalCache false stT text meta = stT ∧
    (generate_speech false cfg synth stT p).2.globalAudio = stT.globalAudio ∧
    (generate_speech false cfg synth stT p).2.globalMeta = stT.globalMeta := by
  refine ⟨rfl, rfl, rfl, rfl, rfl, rfl, ?_, ?_⟩
  · exact (generate_speech_disabled_global_untouched cfg synth stT p).1
  · exact (generate_speech_disabled_global_untouched cfg synth stT p).2

/-- C8 witness: the disabled-cache theorem applied to concrete states
that already hold entries. -/
theorem C8_disabled_cache_behaviour_witness :
    dsIsCached false c4St "hello".data = false ∧
    dsGetFromCache false c4St "hello".data = none ∧
    dsSaveToCache false c4St "hello".data "r".data = c4St ∧
    ttsIsInGlobalCache false c4TtsSt "49f68a5c8493ec2c0bf489821c21fc3b" = false ∧
    ttsIsGenerated false c4TtsSt "p1" (some "hi".data) = false ∧
    ttsSaveToGlobalCache false c4TtsSt "hi".data
      { duration := 3, wordTimings := [] } = c4TtsSt ∧
    (generate_speech false true SynthOutcome.failed c4TtsSt c8P).2.globalAudio =
      c4TtsSt.globalAudio ∧
    (generate_speech false true SynthOutcome.failed c4TtsSt c8P).2.globalMeta =
      c4TtsSt.globalMeta :=
  C8_disabled_cache_behaviour c4St c4TtsSt "hello".data "r".data "p1"
    "49f68a5c8493ec2c0bf489821c21fc3b" (some "hi".data)
    { duration := 3, wordTimings := [] } true SynthOutcome.failed c8P

/-! ## Claim C9 — later stages only add fields -/

/-- C9 counterexample: the claim fails for the rewriting stage.
`process_paragraph` replaces the segment's `content` with the rewritten
text (stashing the original under the added `original_content` key), so
`content` is mutated whenever the rewrite differs from the original. -/
theorem C9_rewriting_replaces_content :
    (dsProcessParagraph false true (some "REWRITTEN".data)
        ⟨[], []⟩ c9P).1.content ≠ c9P.content ∧
    (dsProcessParagraph false true (some "REWRITTEN".data)
        ⟨[], []⟩ c9P).1.content = "REWRITTEN".data ∧
    (dsProcessParagraph false true (some "REWRITTEN".data)
        ⟨[], []⟩ c9P).1.id = c9P.id := by
  decide

/-- C9 amended: later stages never mutate `id`; the speech stage's dict
update only adds the three audio fields (preserving `id`, `content` and
`type`); the rewriting stage preserves image segments entirely and, for
text segments, records the original text under the added
`original_content` field while replacing `content`. -/
theorem C9_stage_updates (enabled apiKey : Bool) (api : Option (List Char))
    (st : DsState) (p : Seg) (info : SpeechInfo) :
    (dsProcessParagraph enabled apiKey api st p).1.id = p.id ∧
    (p.type = SegType.image → (dsProcessParagraph enabled apiKey api st p).1 = p) ∧
    (p.type = SegType.text →
      (dsProcessParagraph enabled apiKey api st p).1.originalContent =
        some p.content) ∧
    (applySpeech p info).id = p.id ∧
    (applySpeech p info).content = p.content ∧
    (applySpeech p info).type = p.type := by
  refine ⟨?_, ?_, ?_, rfl, rfl, rfl⟩
  · by_cases h : p.type = SegType.image <;> simp [dsProcessParagraph, h]
  · intro h; simp [dsProcessParagraph, h]
  · intro h; simp [dsProcessParagraph, h]

/-- C9 witness: the stage-update theorem applied to a concrete text
segment and payload. -/
theorem C9_stage_updates_witness :
    (dsProcessParagraph false true (some "REWRITTEN".data) ⟨[], []⟩ c9P).1.id =
      c9P.id ∧
    (dsProcessParagraph false true (some "REWRITTEN".data) ⟨[], []⟩
        c9P).1.originalContent = some c9P.content ∧
    (applySpeech c9P c7Info).content = c9P.content := by
  obtain ⟨h1, _, h3, _, h5, _⟩ :=
    C9_stage_updates false true (some "REWRITTEN".data) ⟨[], []⟩ c9P c7Info
  exact ⟨h1, h3 rfl, h5⟩

/-! ## Claim C7 — fan-out results return in submission order -/

/-- A list whose keys are already pairwise non-decreasing is left
unchanged by the stable sort. -/
theorem stableSortByKey_of_pairwise {α : Type} (key : α → Nat) :
    ∀ l : List α, l.Pairwise (fun a b => key a ≤ key b) →
      stableSortByKey key l = l
  | [], _ => rfl
  | x :: xs, h => by
    obtain ⟨hx, hxs⟩ := List.pairwise_cons.mp h
    rw [stableSortByKey, stableSortByKey_of_pairwise key xs hxs]
    cases xs with
    | nil => rfl
    | cons y ys => simp [stableInsert, hx y (List.mem_cons_self y ys)]

/-- When segment ids are pairwise distinct, the first index whose id
matches position `i`'s id is `i` itself. -/
theorem findIdx_first_id :
    ∀ (l : List Seg), (l.map Seg.id).Nodup →
      ∀ (i : Nat) (h : i < l.length),
        l.findIdx (fun q => q.id == l[i].id) = i := by
  intro l
  induction l with
  | nil => intro _ i h; simp at h
  | cons x xs ih =>
    intro hn i h
    have hn' : x.id ∉ xs.map Seg.id ∧ (xs.map Seg.id).Nodup := by
      simpa [List.nodup_cons] using hn
    cases i with
    | zero => simp [List.findIdx_cons]
    | succ j =>
      have hj : j < xs.length := by simpa using h
      have hne : (x.id == xs[j].id) = false := by
        rw [beq_eq_false_iff_ne]
        intro he
        exact hn'.1 (he ▸ List.mem_map_of_mem Seg.id (xs.getElem_mem hj))
      rw [List.getElem_cons_succ, List.findIdx_cons, hne]
      simp [ih hn'.2 j hj]

/-- C7 counterexample: the claim fails when two segments share an id.
With submission order `[c7A, c7B, c7C]` (ids `a`, `b`, `a`) and every
task succeeding, the returned list is `[A, C, B]`: the sort key of both
`a`-segments is the index of the *first* `a`, so the stable sort moves
the third result in front of the second. -/
theorem C7_duplicate_ids_permute_output :
    process_paragraphs c7Results [c7A, c7B, c7C] =
      [applySpeech c7A c7Info, applySpeech c7C c7Info,
       applySpeech c7B c7Info] ∧
    process_paragraphs c7Results [c7A, c7B, c7C] ≠
      [applySpeech c7A c7Info, applySpeech c7B c7Info,
       applySpeech c7C c7Info] := by
  decide

/-- C7 amended: when the submitted segments' ids are pairwise distinct,
`process_paragraphs` returns the per-segment outcomes in the original
submission order, for every completion order of the pool (the collected
list is submission-ordered by construction and the final sort is then
the identity). -/
theorem C7_fanout_order_restored (results : Seg → Option SpeechInfo)
    (paras : List Seg) (hn : (paras.map Seg.id).Nodup) :
    process_paragraphs results paras =
      paras.map (collectOutcome results) := by
  unfold process_paragraphs
  have hid : ∀ p, (collectOutcome results p).id = p.id := by
    intro p
    unfold collectOutcome
    cases results p <;> simp [applySpeech]
  apply stableSortByKey_of_pairwise
  rw [List.pairwise_iff_getElem]
  intro i j hi hj hij
  have hi' : i < paras.length := by simpa using hi
  have hj' : j < paras.length := by simpa using hj
  have ki : paras.findIdx
      (fun q => q.id == (paras.map (collectOutcome results))[i].id) = i := by
    rw [List.getElem_map, hid]
    exact findIdx_first_id paras hn i hi'
  have kj : paras.findIdx
      (fun q => q.id == (paras.map (collectOutcome results))[j].id) = j := by
    rw [List.getElem_map, hid]
    exact findIdx_first_id paras hn j hj'
  rw [ki, kj]
  omega

/-- C7 witness: the order-restoration theorem applied to two concrete
segments with distinct ids. -/
theorem C7_fanout_order_restored_witness :
    process_paragraphs c7Results [c7A, c7B] =
      [c7A, c7B].map (collectOutcome c7Results) :=
  C7_fanout_order_restored c7Results [c7A, c7B] (by decide)

/-! ## Splitter lemmas shared by claims C5 and C6 -/

/-- The `re.split` part list concatenates back to the input, for any
fuel (the out-of-fuel fallback also preserves the concatenation). -/
theorem flatten_splitPartsGo : ∀ (fuel : Nat) (l : List Char),
    (splitPartsGo fuel l).flatten = l
  | 0, l => by simp [splitPartsGo]
  | fuel + 1, l => by
    simp only [splitPartsGo]
    cases hrest : l.dropWhile (fun c => !isSentEnd c) with
    | nil =>
      simp only [List.flatten_cons, List.flatten_nil, List.append_nil]
      conv_rhs => rw [← List.takeWhile_append_dropWhile (p := fun c => !isSentEnd c) (l := l)]
      rw [hrest, List.append_nil]
    | cons c rest' =>
      simp only [List.flatten_cons]
      rw [flatten_splitPartsGo fuel]
      rw [List.takeWhile_append_dropWhile]
      conv_rhs => rw [← List.takeWhile_append_dropWhile (p := fun c => !isSentEnd c) (l := l)]
      rw [hrest]

/-- The sentence-pairing loop preserves the concatenation. -/
theorem flatten_mergePairs : ∀ l : List (List Char),
    (mergePairs l).flatten = l.flatten
  | [] => rfl
  | [x] => by simp [mergePairs]
  | x :: y :: rest => by
    simp [mergePairs, flatten_mergePairs rest, List.append_assoc]

/-- The sentences of a text concatenate back to the text. -/
theorem flatten_sentencesOf (l : List Char) :
    (sentencesOf l).flatten = l := by
  rw [sentencesOf, flatten_mergePairs, splitParts, flatten_splitPartsGo]

/-- Every run the greedy packer emits is within the budget or satisfies
the property every input sentence (and the seed accumulator) has. -/
theorem packRuns_mem (B : Nat) (P : List Char → Prop) :
    ∀ (ss : List (List Char)) (cur : List Char),
      (∀ s ∈ ss, P s) → (cur = [] ∨ cur.length ≤ B ∨ P cur) →
      ∀ run ∈ packRuns B ss cur, run.length ≤ B ∨ P run
  | [], cur, _, hcur => by
    by_cases h : cur = []
    · simp [packRuns, h]
    · simp only [packRuns, if_neg h]
      intro run hr
      rw [List.mem_singleton] at hr
      subst hr
      rcases hcur with h0 | h0 | h0
      · exact absurd h0 h
      · exact Or.inl h0
      · exact Or.inr h0
  | s :: ss', cur, hss, hcur => by
    have hs : P s := hss s (List.mem_cons_self s ss')
    have hss' : ∀ t ∈ ss', P t := fun t ht => hss t (List.mem_cons_of_mem s ht)
    by_cases hpack : cur.length + s.length ≤ B
    · simp only [packRuns, if_pos hpack]
      exact packRuns_mem B P ss' (cur ++ s) hss'
        (Or.inr (Or.inl (by simpa using hpack)))
    · simp only [packRuns, if_neg hpack]
      by_cases hnil : cur = []
      · simp only [if_pos hnil]
        exact packRuns_mem B P ss' s hss' (Or.inr (Or.inr hs))
      · simp only [if_neg hnil]
        intro run hr
        rcases List.mem_cons.mp hr with h | h
        · subst h
          rcases hcur with h0 | h0 | h0
          · exact absurd h0 hnil
          · exact Or.inl h0
          · exact Or.inr h0
        · exact packRuns_mem B P ss' s hss' (Or.inr (Or.inr hs)) run h

/-- The greedy packer groups the sentence list: starting with a pending
block `cblock` whose concatenation is the accumulator, the emitted runs
partition `cblock ++ ss` into consecutive blocks. -/
theorem packRuns_grouped (B : Nat) :
    ∀ (ss : List (List Char)) (cblock : List (List Char)),
      Grouped (cblock ++ ss) (packRuns B ss cblock.flatten)
  | [], cblock => by
    by_cases h : cblock.flatten = []
    · simp only [packRuns, if_pos h, List.append_nil]
      exact Grouped.base (List.flatten_eq_nil_iff.mp h)
    · simp only [packRuns, if_neg h]
      have hrun := Grouped.run cblock h
        (Grouped.base (fun s hs => absurd hs (List.not_mem_nil s)))
      simpa using hrun
  | s :: ss', cblock => by
    by_cases hpack : cblock.flatten.length + s.length ≤ B
    · simp only [packRuns, if_pos hpack]
      have := packRuns_grouped B ss' (cblock ++ [s])
      simpa [List.append_assoc] using this
    · simp only [packRuns, if_neg hpack]
      by_cases hnil : cblock.flatten = []
      · simp only [if_pos hnil]
        have := packRuns_grouped B ss' (cblock ++ [s])
        rw [List.flatten_append] at this
        simpa [List.append_assoc, hnil] using this
      · simp only [if_neg hnil]
        have htail : Grouped (s :: ss') (packRuns B ss' s) := by
          simpa using packRuns_grouped B ss' [s]
        simpa using Grouped.run cblock hnil htail

/-- A grouping's runs concatenate to the grouped sentences'
concatenation. -/
theorem Grouped.flatten_eq :
    ∀ {ss runs : List (List Char)}, Grouped ss runs →
      runs.flatten = ss.flatten := by
  intro ss runs h
  induction h with
  | base hall =>
    simp [List.flatten_eq_nil_iff.mpr hall]
  | run block hne htail ih =>
    simp [List.flatten_append, ih]

/-! ## Claim C5 — derived segment ids -/

/-- C5 counterexample: the claim's id formula fails on the code.  For
`split_paragraph` on id `p`, text `"aaaa! bbb!"`, budget 5, the second
derived segment stores the trimmed text `"bbb!"` but its id suffix
`a8bae47d` is the digest of the *untrimmed* run `" bbb!"`; the digest of
the trimmed text is `2fd2d163`, so the id is not
`{parentId}_{hash8(trimmed text)}`. -/
theorem C5_id_hashes_untrimmed_run :
    (split_paragraph 5 c5P).map Seg.id = ["p_de197b2a", "p_a8bae47d"] ∧
    (split_paragraph 5 c5P).map Seg.content = ["aaaa!".data, "bbb!".data] ∧
    hash8 "bbb!".data = "2fd2d163" ∧
    ("p_" ++ hash8 "bbb!".data : String) ≠ "p_a8bae47d" := by
  decide

/-- C5 amended: every derived id is `{parentId}_{hash8}` where `hash8`
is the first 8 hex characters of the MD5 digest of the run's exact text
*before* trimming (the stored content is the trimmed run), and the ids
are deterministic: they are a function of the parent id and the text
alone, so splitting equal inputs yields equal id lists. -/
theorem C5_derived_ids (B : Nat) (pid : String) (content : List Char)
    (hover : B < content.length) :
    ((split_paragraph B
        { id := pid, type := SegType.text, content := content }).map Seg.id =
      (packRuns B (sentencesOf content) []).map
        (fun run => pid ++ "_" ++ hash8 run)) ∧
    (∀ p q : Seg, p.id = q.id → p.type = q.type → p.content = q.content →
      (split_paragraph B p).map Seg.id = (split_paragraph B q).map Seg.id) := by
  constructor
  · have hnl : ¬ content.length ≤ B := by omega
    simp [split_paragraph, hnl, mkRunSeg, List.map_map, Function.comp]
  · intro p q h1 h2 h3
    by_cases ht : q.type = SegType.image
    · simp [split_paragraph, h2, ht, h1]
    · by_cases hlen : q.content.length ≤ B
      · simp [split_paragraph, h2, ht, h3, hlen, h1]
      · simp [split_paragraph, h2, ht, h3, hlen, h1]

/-- C5 witness: the amended theorem applied to the concrete oversized
paragraph. -/
theorem C5_derived_ids_witness :
    (split_paragraph 5
        { id := "p", type := SegType.text, content := "aaaa! bbb!".data }).map
      Seg.id =
      (packRuns 5 (sentencesOf "aaaa! bbb!".data) []).map
        (fun run => "p" ++ "_" ++ hash8 run) :=
  (C5_derived_ids 5 "p" "aaaa! bbb!".data (by decide)).1

/-! ## Claim C6 — sentence-boundary splitting -/

/-- C6 counterexample: the claim's boundary set fails on the code.  The
splitter's regex holds `。！？!?` but not the ASCII full stop, so the
oversized text `"aa. bb. cc."` (length 11, budget 5) comes back as one
oversized segment that is not a single sentence under the claim's
boundary set (which splits it into 4 parts). -/
theorem C6_ascii_period_not_a_boundary :
    (split_paragraph 5 c6P).map Seg.content = ["aa. bb. cc.".data] ∧
    ("aa. bb. cc.".data).length = 11 ∧
    (claimSentencesOf "aa. bb. cc.".data).length = 4 ∧
    "aa. bb. cc.".data ∉ claimSentencesOf "aa. bb. cc.".data := by
  decide

/-- C6 amended: with the code's boundary set `。！？!?` (ASCII `.` is
not a boundary): image units and text within the budget pass through as
exactly one unchanged segment; an oversized text is split into greedily
packed runs whose stored contents are the trimmed runs, every run is
within the budget or is a single (code-)sentence, the runs concatenate
back to the original text, and the runs group the sentence sequence into
consecutive blocks (no sentence is cut across runs). -/
theorem C6_split_at_code_boundaries (B : Nat) (p : Seg) :
    (p.type = SegType.image → split_paragraph B p = [p]) ∧
    (p.type = SegType.text → p.content.length ≤ B →
      split_paragraph B p = [p]) ∧
    (p.type = SegType.text → B < p.content.length →
      (split_paragraph B p).map Seg.content =
        (packRuns B (sentencesOf p.content) []).map pyStrip ∧
      (∀ run ∈ packRuns B (sentencesOf p.content) [],
        run.length ≤ B ∨ run ∈ sentencesOf p.content) ∧
      (packRuns B (sentencesOf p.content) []).flatten = p.content ∧
      Grouped (sentencesOf p.content) (packRuns B (sentencesOf p.content) [])) := by
  refine ⟨?_, ?_, ?_⟩
  · intro h; simp [split_paragraph, h]
  · intro h1 h2; simp [split_paragraph, h1, h2]
  · intro h1 h2
    have hni : ¬ p.type = SegType.image := by rw [h1]; decide
    have hnl : ¬ p.content.length ≤ B := by omega
    have hgr : Grouped (sentencesOf p.content)
        (packRuns B (sentencesOf p.content) []) := by
      simpa using packRuns_grouped B (sentencesOf p.content) []
    refine ⟨?_, ?_, ?_, hgr⟩
    · simp [split_paragraph, hni, hnl, mkRunSeg, List.map_map, Function.comp]
    · intro run hr
      exact packRuns_mem B (· ∈ sentencesOf p.content)
        (sentencesOf p.content) [] (fun s hs => hs) (Or.inl rfl) run hr
    · rw [Grouped.flatten_eq hgr, flatten_sentencesOf]

/-- C6 witness: the amended theorem applied to a short text (identity)
and to the concrete oversized paragraph (trimmed packed runs). -/
theorem C6_split_at_code_boundaries_witness :
    split_paragraph 5 { id := "q", type := SegType.text, content := "ab".data } =
      [{ id := "q", type := SegType.text, content := "ab".data }] ∧
    (split_paragraph 5 c5P).map Seg.content =
      (packRuns 5 (sentencesOf "aaaa! bbb!".data) []).map pyStrip :=
  ⟨(C6_split_at_code_boundaries 5
      { id := "q", type := SegType.text, content := "ab".data }).2.1 rfl
      (by decide),
   ((C6_split_at_code_boundaries 5 c5P).2.2 rfl (by decide)).1⟩

end Vobook
